import Mathlib

/-!
Verification of the hailthyfy ML service core against its design document.

The development shallowly embeds the three core components of the
repository in Lean 4:

* `LungSegmenter.get_zonal_masks` and `LungSegmenter.preprocess`
  (ml_service/segmentation.py),
* the zonal-metrics loop and the bilateral-asymmetry formula of
  `RadiologyFeatureExtractor.extract` (ml_service/features_v2.py),
  together with the exception-routing skeleton of `extract`,
* `FusionEngine.fuse` (ml_service/fusion.py), embedded in full.

Numbers are embedded as exact rationals (`ℚ`); pixel intensities as `ℕ`.
The human-readable note/flag strings appended by the Python code are
embedded as an inductive tag per append site, since the claims only
concern which notes/flags are produced, not their formatted text.
-/

/-! ## String helpers

The Python code tests substring containment (`'asym' in k`).  We embed
containment of one character list in another directly. -/

/-- Containment test: `pat` occurs at the head of `l`. -/
def charListIsPre : List Char → List Char → Bool
  | [], _ => true
  | _ :: _, [] => false
  | p :: ps, c :: cs => p == c && charListIsPre ps cs

/-- Containment test: `pat` occurs somewhere inside `l`. -/
def charListHasSub (pat : List Char) : List Char → Bool
  | [] => charListIsPre pat []
  | c :: cs => charListIsPre pat (c :: cs) || charListHasSub pat cs

/-- Python's `pat in s` substring test for strings. -/
def strHasSub (s pat : String) : Bool := charListHasSub pat.data s.data

/-- Python's `d.get(k, default)` over an association list (insertion order). -/
def lookupD (l : List (String × ℚ)) (k : String) (d : ℚ) : ℚ :=
  match l with
  | [] => d
  | (k', v) :: rest => if k' = k then v else lookupD rest k d

/-- Python's `max(d, key=d.get)` over an association list representing a
dict in insertion order: the first key of maximal value (a later key
replaces the current best only when its value is strictly greater). -/
def argmaxBy (l : List (String × ℚ)) : Option (String × ℚ) :=
  match l with
  | [] => none
  | x :: rest => some (rest.foldl (fun best p => if p.2 > best.2 then p else best) x)

/-! ## FusionEngine.fuse (ml_service/fusion.py, lines 23-272)

State of the linear fusion pipeline: the local variables of `fuse`. -/

/-- One tag per `flags.append(...)` site in `FusionEngine.fuse`. -/
inductive FuseFlag where
  | segmentationWarning
  | anatomyUnclear
  | dlModelWarning
  | possibleFalsePositive
  | clinicalAlert
  | consensusMismatch
deriving DecidableEq, Repr

/-- One tag per `adjustments.append(...)` site in `FusionEngine.fuse`. -/
inductive FuseAdjustment where
  | cappedHighDL
  | cappedAnatomyRisk
  | handcraftedPneumonia
  | handcraftedInfiltration
  | handcraftedNormal
  | downgradeSymmetric
  | normalReduced
  | confirmationBoost
  | vectorDbNote
  | knnBoost
deriving DecidableEq, Repr

/-- Result of `FusionEngine._generate_summary` (fusion.py lines 267-272). -/
inductive FuseSummary where
  | flaggedForReview
  | highConfidence
  | moderateConfidence
deriving DecidableEq, Repr

/-- A record from the vector DB: `case['metadata']['label']` and
`case['similarity']` are the only fields `fuse` reads. -/
structure SimilarCase where
  label : String
  similarity : ℚ
deriving DecidableEq, Repr

/-- The dictionary returned by `FusionEngine.fuse` (fusion.py lines 258-265). -/
structure FusionResult where
  final_diagnosis : String
  confidence_score : ℚ
  raw_dl_score : ℚ
  adjustments : List FuseAdjustment
  flags : List FuseFlag
  summary : FuseSummary
deriving DecidableEq, Repr

/-- The local variables of `fuse` threaded through its linear pipeline. -/
structure FuseState where
  dl_top_label : String
  dl_score : ℚ
  lung_ratio : ℚ
  asymmetry_max : ℚ
  opacity_count : ℚ
  final_score : ℚ
  max_conf_cap : ℚ
  adjustments : List FuseAdjustment
  flags : List FuseFlag
deriving DecidableEq, Repr

/-- The substring `'asym'` scanned for in fusion.py line 67. -/
def asymTok : String := "asym"

/-- The substring `'opacity'` scanned for in fusion.py line 67. -/
def opacityTok : String := "opacity"

/-- The asymmetry scan of fusion.py lines 63-70: the maximum value among
features whose key contains both `asym` and `opacity`, starting at 0.0,
together with the key that produced it. -/
def asymScan (feats : List (String × ℚ)) : ℚ × String :=
  feats.foldl
    (fun acc kv =>
      if strHasSub kv.1 asymTok ∧ strHasSub kv.1 opacityTok ∧ kv.2 > acc.1
      then (kv.2, kv.1) else acc)
    (0, "")

/-- Key of the lung area ratio feature. -/
def lungAreaRatioKey : String := "lung_area_ratio"

/-- Key of the opacity count feature. -/
def opacityCountKey : String := "opacity_count"

/-- Step 1 of `fuse` (fusion.py lines 77-104): the anatomy gatekeeper.
Sets `max_conf_cap` and may append flags/adjustments; never touches the
score. -/
def anatomyGate (s : FuseState) : FuseState :=
  if s.lung_ratio < 1/100 then
    { s with flags := s.flags ++ [.segmentationWarning] }
  else if s.lung_ratio < 1/10 ∨ s.lung_ratio > 3/4 then
    if s.dl_score > 9/10 then
      { s with max_conf_cap := 17/20,
               adjustments := s.adjustments ++ [.cappedHighDL] }
    else
      { s with max_conf_cap := 13/20,
               flags := s.flags ++ [.anatomyUnclear],
               adjustments := s.adjustments ++ [.cappedAnatomyRisk] }
  else s

/-- Step 2a of `fuse` (fusion.py lines 112-147): the low-confidence
fallback.  When the classifier's top score is below 0.10 the label and
score are recomputed from the handcrafted signals alone. -/
def lowConfFallback (s : FuseState) : FuseState :=
  if s.dl_score < 1/10 then
    let s : FuseState := { s with flags := s.flags ++ [.dlModelWarning] }
    if s.asymmetry_max > 3/20 ∨ s.opacity_count > 25 then
      { s with dl_top_label := "Pneumonia",
               final_score := 3/5 + min (s.asymmetry_max * 1) (3/10),
               adjustments := s.adjustments ++ [.handcraftedPneumonia] }
    else if s.asymmetry_max > 2/25 ∨ s.opacity_count > 15 then
      { s with dl_top_label := "Infiltration",
               final_score := 1/2 + min (s.asymmetry_max * (4/5)) (1/4),
               adjustments := s.adjustments ++ [.handcraftedInfiltration] }
    else
      { s with dl_top_label := "Normal",
               final_score := 3/4 + min ((3/20 - s.asymmetry_max) * (1/2)) (1/5),
               adjustments := s.adjustments ++ [.handcraftedNormal] }
  else s

/-- Scenario A of `fuse` (fusion.py lines 149-160): DL says sick,
physiology says healthy; 20% downgrade. -/
def scenarioA (s : FuseState) : FuseState :=
  if s.dl_top_label ≠ "Normal" ∧ s.dl_score > 3/5 ∧ s.asymmetry_max < 1/10 then
    { s with final_score := s.final_score * (1 - 1/5),
             adjustments := s.adjustments ++ [.downgradeSymmetric],
             flags := s.flags ++ [.possibleFalsePositive] }
  else s

/-- Scenario B of `fuse` (fusion.py lines 162-174): DL says Normal,
physiology says sick; 40% downgrade of the Normal confidence. -/
def scenarioB (s : FuseState) : FuseState :=
  if s.dl_top_label = "Normal" ∧ s.asymmetry_max > 1/4 then
    { s with final_score := s.final_score * (1 - 2/5),
             adjustments := s.adjustments ++ [.normalReduced],
             flags := s.flags ++ [.clinicalAlert] }
  else s

/-- Scenario C of `fuse` (fusion.py lines 176-185): confirmation boost. -/
def scenarioC (s : FuseState) : FuseState :=
  if s.dl_top_label ≠ "Normal" ∧ s.dl_score > 3/5 ∧ s.asymmetry_max > 1/5 then
    { s with final_score := min 1 (s.final_score + 1/10),
             adjustments := s.adjustments ++ [.confirmationBoost] }
  else s

/-- The vote accumulation of fusion.py line 202:
`votes[label] = votes.get(label, 0) + sim`, preserving dict insertion
order (first occurrence of each label). -/
def addVote (votes : List (String × ℚ)) (lbl : String) (sim : ℚ) : List (String × ℚ) :=
  match votes with
  | [] => [(lbl, sim)]
  | (k, v) :: rest =>
      if k = lbl then (k, v + sim) :: rest else (k, v) :: addVote rest lbl sim

/-- The `votes` dict after the loop of fusion.py lines 196-205. -/
def votesOf (cases : List SimilarCase) : List (String × ℚ) :=
  cases.foldl (fun vs c => addVote vs c.label c.similarity) []

/-- The `total_weight` accumulator of fusion.py lines 193-203. -/
def totalWeight (cases : List SimilarCase) : ℚ :=
  cases.foldl (fun t c => t + c.similarity) 0

/-- Step 3 of `fuse` (fusion.py lines 187-234): the vector-DB consensus
step.  In the source the `consensus = votes[top] / total_weight` division
sits inside the `total_weight > 0` guard; when the guard fails the whole
step leaves the state untouched. -/
def knnStep (cases : List SimilarCase) (s : FuseState) : FuseState :=
  if cases ≠ [] then
    let total := totalWeight cases
    if total > 0 then
      match argmaxBy (votesOf cases) with
      | none => s
      | some top =>
        let consensus := top.2 / total
        let s : FuseState := { s with adjustments := s.adjustments ++ [.vectorDbNote] }
        if top.1 = s.dl_top_label then
          { s with final_score := min 1 (s.final_score + 1/20 * consensus),
                   adjustments := s.adjustments ++ [.knnBoost] }
        else if consensus > 3/5 then
          { s with flags := s.flags ++ [.consensusMismatch],
                   final_score := s.final_score * (9/10) }
        else s
    else s
  else s

/-- Step 4 of `fuse` (fusion.py lines 236-242): apply the confidence cap. -/
def applyCap (s : FuseState) : FuseState :=
  if s.final_score > s.max_conf_cap then { s with final_score := s.max_conf_cap } else s

/-- `FusionEngine._generate_summary` (fusion.py lines 267-272). -/
def generateSummary (score : ℚ) (flags : List FuseFlag) : FuseSummary :=
  if flags ≠ [] then .flaggedForReview
  else if score > 17/20 then .highConfidence
  else .moderateConfidence

/-- Initial pipeline state (fusion.py lines 45-109): top prediction,
physiological signals, score seeded from the top DL score, cap 1.0. -/
def initState (top : String × ℚ) (feats : List (String × ℚ)) : FuseState :=
  { dl_top_label := top.1
    dl_score := top.2
    lung_ratio := lookupD feats lungAreaRatioKey 0
    asymmetry_max := (asymScan feats).1
    opacity_count := lookupD feats opacityCountKey 0
    final_score := top.2
    max_conf_cap := 1
    adjustments := []
    flags := [] }

/-- Assembly of the returned dictionary (fusion.py lines 258-265) from the
final pipeline state and the raw DL score. -/
def mkResult (raw : ℚ) (s : FuseState) : FusionResult :=
  { final_diagnosis := s.dl_top_label
    confidence_score := s.final_score
    raw_dl_score := raw
    adjustments := s.adjustments
    flags := s.flags
    summary := generateSummary s.final_score s.flags }

/-- `FusionEngine.fuse` (fusion.py lines 23-265).  Returns `none` when the
prediction dict is empty (Python's `max` over an empty dict raises). -/
def fuse (preds feats : List (String × ℚ)) (cases : List SimilarCase) :
    Option FusionResult :=
  match argmaxBy preds with
  | none => none
  | some top =>
    some (mkResult top.2 (applyCap (knnStep cases (scenarioC (scenarioB (scenarioA
            (lowConfFallback (anatomyGate (initState top feats)))))))))

/-! ## LungSegmenter (ml_service/segmentation.py)

A mask or image of the working resolution is a grid of natural-number
intensities indexed by row and column. -/

/-- A two-dimensional grid of pixel intensities (row, column). -/
def PixGrid (h w : ℕ) : Type := Fin h → Fin w → ℕ

/-- Image moment `m00` of a mask: the sum of all intensities
(`cv2.moments`, segmentation.py line 119). -/
def m00 {h w : ℕ} (m : PixGrid h w) : ℕ := ∑ y : Fin h, ∑ x : Fin w, m y x

/-- Image moment `m10`: the column-weighted intensity sum. -/
def m10 {h w : ℕ} (m : PixGrid h w) : ℕ := ∑ y : Fin h, ∑ x : Fin w, (x : ℕ) * m y x

/-- The centroid column `cX = int(m10 / m00)` of segmentation.py lines
120-123, with the `w // 2` fallback for an all-zero mask.  For
non-negative moments Python's `int(...)` truncation is the floor, i.e.
natural-number division. -/
def centroidX {h w : ℕ} (m : PixGrid h w) : ℕ :=
  if m00 m ≠ 0 then m10 m / m00 m else w / 2

/-- The rows that contain at least one on-pixel (the rows touched by
`cv2.findNonZero`, segmentation.py line 152). -/
def onRows {h w : ℕ} (m : PixGrid h w) : Finset (Fin h) :=
  Finset.univ.filter (fun y => ∃ x, m y x ≠ 0)

/-- `top_y` of segmentation.py lines 153-158: the top row of the bounding
box of the on-pixels, or 0 when the mask is empty. -/
def topY {h w : ℕ} (m : PixGrid h w) : ℕ :=
  if hne : (onRows m).Nonempty then ((onRows m).min' hne : Fin h).1 else 0

/-- `bottom_y` of segmentation.py lines 153-158: one past the bottom row
of the bounding box (`y + h_box`), or `h` when the mask is empty. -/
def bottomY {h w : ℕ} (m : PixGrid h w) : ℕ :=
  if hne : (onRows m).Nonempty then ((onRows m).max' hne : Fin h).1 + 1 else h

/-- `third = lung_height // 3` (segmentation.py lines 160-161). -/
def lungThird {h w : ℕ} (m : PixGrid h w) : ℕ := (bottomY m - topY m) / 3

/-- `y1 = top_y + third` (segmentation.py line 163). -/
def splitY1 {h w : ℕ} (m : PixGrid h w) : ℕ := topY m + lungThird m

/-- `y2 = top_y + 2 * third` (segmentation.py line 164). -/
def splitY2 {h w : ℕ} (m : PixGrid h w) : ℕ := topY m + 2 * lungThird m

/-- The anatomical right lung half (image columns `[0, cX)`,
segmentation.py lines 143-144): the zero buffer with columns below the
centroid copied from the lung mask. -/
def sideRight {h w : ℕ} (m : PixGrid h w) : PixGrid h w :=
  fun y x => if (x : ℕ) < centroidX m then m y x else 0

/-- The anatomical left lung half (image columns `[cX, w)`,
segmentation.py lines 146-147). -/
def sideLeft {h w : ℕ} (m : PixGrid h w) : PixGrid h w :=
  fun y x => if (x : ℕ) < centroidX m then 0 else m y x

/-- The `create_zone` slice utility of segmentation.py lines 172-175:
rows `[y_start, y_end)` copied from the base mask onto a zero buffer. -/
def createZone {h w : ℕ} (base : PixGrid h w) (ys ye : ℕ) : PixGrid h w :=
  fun y x => if ys ≤ (y : ℕ) ∧ (y : ℕ) < ye then base y x else 0

/-- `LungSegmenter.get_zonal_masks` (segmentation.py lines 105-187): the
six named zone masks. -/
def zonalMasks {h w : ℕ} (m : PixGrid h w) : List (String × PixGrid h w) :=
  [("R_Upper", createZone (sideRight m) (topY m) (splitY1 m)),
   ("R_Middle", createZone (sideRight m) (splitY1 m) (splitY2 m)),
   ("R_Lower", createZone (sideRight m) (splitY2 m) (bottomY m)),
   ("L_Upper", createZone (sideLeft m) (topY m) (splitY1 m)),
   ("L_Middle", createZone (sideLeft m) (splitY1 m) (splitY2 m)),
   ("L_Lower", createZone (sideLeft m) (splitY2 m) (bottomY m))]

/-! ## LungSegmenter.preprocess (segmentation.py lines 22-34) -/

/-- A raw image buffer: dimensions plus an intensity function. -/
structure Img where
  ih : ℕ
  iw : ℕ
  pix : ℕ → ℕ → ℕ

/-- A buffer of the given dimensions with every intensity 0. -/
def zeroImg (hh ww : ℕ) : Img := ⟨hh, ww, fun _ _ => 0⟩

/-- `LungSegmenter.preprocess` (segmentation.py lines 22-34).  The input
is `Option Img`: `none` embeds Python's `None` (the empty input).  On
`None` the source returns `None` immediately; otherwise it resizes and
min-max-normalizes.  The two OpenCV library calls (`cv2.resize`,
`cv2.normalize`) are external floating-point kernels and are abstracted
as function parameters; no claim here depends on their values. -/
def preprocess (resizeFn normalizeFn : Img → Img) (image : Option Img) : Option Img :=
  match image with
  | none => none
  | some img => some (normalizeFn (resizeFn img))

/-! ## RadiologyFeatureExtractor (ml_service/features_v2.py) -/

/-- `z_pixels = img[z_mask > 0]` (features_v2.py line 77): the image
intensities at the on-pixels of a zone mask, in row-major order. -/
def zonePixels {h w : ℕ} (img zmask : PixGrid h w) : List ℕ :=
  ((List.finRange h).map (fun y =>
    (List.finRange w).filterMap (fun x =>
      if zmask y x ≠ 0 then some (img y x) else none))).flatten

/-- The body of the zonal-metrics loop of features_v2.py lines 76-106 for
one zone.  An empty zone (line 79) records `_mean`, `_std`, `_entropy`
and `_contrast` as 0.0; a non-empty zone records `_mean`, `_norm_mean`,
`_std` and `_entropy`.  The mean is exact rational arithmetic; `np.std`
and the LBP-histogram entropy are floating-point library kernels and are
abstracted as the function parameters `stdFn` and `entFn` (the claims
settled here depend only on which keys are produced and on the mean). -/
def zoneMetricsOne (stdFn entFn : List ℕ → ℚ) (zName : String)
    (zPixels : List ℕ) (globalMean : ℚ) : List (String × ℚ) :=
  if zPixels.length = 0 then
    [(zName ++ "_mean", 0), (zName ++ "_std", 0),
     (zName ++ "_entropy", 0), (zName ++ "_contrast", 0)]
  else
    let zMean : ℚ := (zPixels.map (fun n => (n : ℚ))).sum / zPixels.length
    [(zName ++ "_mean", zMean),
     (zName ++ "_norm_mean", zMean / (globalMean + 1/1000000)),
     (zName ++ "_std", stdFn zPixels),
     (zName ++ "_entropy", entFn zPixels)]

/-- The bilateral opacity-asymmetry formula of features_v2.py line 119:
`asym = abs(l_val - r_val) / (l_val + r_val + 1e-6)`. -/
def asymOpacity (lVal rVal : ℚ) : ℚ := |lVal - rVal| / (lVal + rVal + 1/1000000)

/-- The per-level asymmetry feature of features_v2.py lines 112-120,
reading the two zone means from the zone-metrics dict with default 0. -/
def asymLevelFeature (zoneMetrics : List (String × ℚ)) (level : String) : ℚ :=
  asymOpacity (lookupD zoneMetrics ("L_" ++ level ++ "_mean") 0)
    (lookupD zoneMetrics ("R_" ++ level ++ "_mean") 0)

/-- Sequential execution of the feature stages of
`RadiologyFeatureExtractor.extract` (features_v2.py lines 56-211).  Each
stage contributes its features to the shared dict; a raised exception in
any stage propagates (there is no per-stage handler in the source). -/
def runStages (stages : List (Except String (List (String × ℚ)))) :
    Except String (List (String × ℚ)) :=
  match stages with
  | [] => .ok []
  | st :: rest => do
      let f ← st
      let r ← runStages rest
      .ok (f ++ r)

/-- The exception-routing skeleton of `RadiologyFeatureExtractor.extract`
(features_v2.py lines 27-215): the whole body sits inside one
`try ... except` (lines 28 and 213-215).  A decode failure (line 38)
returns the empty dict; any exception raised by any stage reaches the
single handler, which also returns the empty dict.  The numeric bodies of
the five stages are abstracted as fallible computations, since the claim
settled against this definition concerns only the exception routing. -/
def extractFeatures (decodeOk : Bool)
    (stages : List (Except String (List (String × ℚ)))) : List (String × ℚ) :=
  if decodeOk = false then []
  else
    match runStages stages with
    | .ok fs => fs
    | .error _ => []

/-- A concrete 1-by-1 binary mask with its only pixel on, used as a
witness input. -/
def maskOn11 : PixGrid 1 1 := fun _ _ => 255

/-- A concrete 1-by-1 all-zero mask, used as a witness input. -/
def maskOff11 : PixGrid 1 1 := fun _ _ => 0

/-- A concrete 1-by-1 image, used as a witness input. -/
def img11 : PixGrid 1 1 := fun _ _ => 100

/-! ## Ground facts about the concrete strings used below, settled by
evaluation -/

@[simp] theorem hasSub_asymLower_asym : strHasSub ("asym_Lower_opacity") asymTok = true := by decide

@[simp] theorem hasSub_asymLower_opacity : strHasSub ("asym_Lower_opacity") opacityTok = true := by decide

@[simp] theorem hasSub_lungRatio_asym : strHasSub ("lung_area_ratio") asymTok = false := by decide

@[simp] theorem hasSub_opCount_asym : strHasSub ("opacity_count") asymTok = false := by decide

@[simp] theorem key_lungRatio_ne_opCount : (("lung_area_ratio" : String) = "opacity_count") = False := by decide

@[simp] theorem key_asymLower_ne_opCount : (("asym_Lower_opacity" : String) = "opacity_count") = False := by decide

@[simp] theorem key_asymLower_ne_lungRatio : (("asym_Lower_opacity" : String) = "lung_area_ratio") = False := by decide

@[simp] theorem lbl_pneumonia_ne_normal : (("Pneumonia" : String) = "Normal") = False := by decide

@[simp] theorem lbl_infiltration_ne_normal : (("Infiltration" : String) = "Normal") = False := by decide

/-- Appending distinct suffixes to the same string gives distinct strings. -/
theorem append_tail_ne (s : String) {a b : String} (hab : a ≠ b) : s ++ a ≠ s ++ b := by
  intro hEq
  apply hab
  have hd : (s ++ a).data = (s ++ b).data := congrArg String.data hEq
  rw [String.data_append, String.data_append] at hd
  have hdd := List.append_cancel_left hd
  cases a
  cases b
  exact congrArg String.mk hdd

/-! ## Field-preservation lemmas for the fusion pipeline steps -/

theorem anatomyGate_final_score (s : FuseState) :
    (anatomyGate s).final_score = s.final_score := by
  unfold anatomyGate; split_ifs <;> rfl

theorem anatomyGate_dl_score (s : FuseState) :
    (anatomyGate s).dl_score = s.dl_score := by
  unfold anatomyGate; split_ifs <;> rfl

theorem anatomyGate_label (s : FuseState) :
    (anatomyGate s).dl_top_label = s.dl_top_label := by
  unfold anatomyGate; split_ifs <;> rfl

theorem anatomyGate_asym (s : FuseState) :
    (anatomyGate s).asymmetry_max = s.asymmetry_max := by
  unfold anatomyGate; split_ifs <;> rfl

theorem anatomyGate_cap_cases (s : FuseState) :
    (anatomyGate s).max_conf_cap = s.max_conf_cap ∨
      (anatomyGate s).max_conf_cap = 17/20 ∨ (anatomyGate s).max_conf_cap = 13/20 := by
  unfold anatomyGate; split_ifs <;> simp

theorem lowConfFallback_dl_score (s : FuseState) :
    (lowConfFallback s).dl_score = s.dl_score := by
  unfold lowConfFallback; dsimp only; split_ifs <;> rfl

theorem lowConfFallback_cap (s : FuseState) :
    (lowConfFallback s).max_conf_cap = s.max_conf_cap := by
  unfold lowConfFallback; dsimp only; split_ifs <;> rfl

theorem scenarioA_cap (s : FuseState) :
    (scenarioA s).max_conf_cap = s.max_conf_cap := by
  unfold scenarioA; split_ifs <;> rfl

theorem scenarioB_cap (s : FuseState) :
    (scenarioB s).max_conf_cap = s.max_conf_cap := by
  unfold scenarioB; split_ifs <;> rfl

theorem scenarioC_cap (s : FuseState) :
    (scenarioC s).max_conf_cap = s.max_conf_cap := by
  unfold scenarioC; split_ifs <;> rfl

theorem knnStep_cap (cases : List SimilarCase) (s : FuseState) :
    (knnStep cases s).max_conf_cap = s.max_conf_cap := by
  unfold knnStep
  dsimp only
  split_ifs <;> try rfl
  rcases argmaxBy (votesOf cases) with _ | top
  · rfl
  · dsimp only; split_ifs <;> rfl

theorem applyCap_le (s : FuseState) : (applyCap s).final_score ≤ s.max_conf_cap := by
  unfold applyCap
  split_ifs with h
  · rfl
  · exact le_of_not_lt h

theorem applyCap_nonneg (s : FuseState) (h0 : 0 ≤ s.final_score)
    (hc : 0 ≤ s.max_conf_cap) : 0 ≤ (applyCap s).final_score := by
  unfold applyCap
  split_ifs <;> assumption

/-! ## Flag and adjustment monotonicity: every step only appends -/

theorem anatomyGate_flags_sub (s : FuseState) : s.flags ⊆ (anatomyGate s).flags := by
  unfold anatomyGate; split_ifs <;> simp

theorem anatomyGate_adj_sub (s : FuseState) : s.adjustments ⊆ (anatomyGate s).adjustments := by
  unfold anatomyGate; split_ifs <;> simp

theorem lowConfFallback_flags_sub (s : FuseState) : s.flags ⊆ (lowConfFallback s).flags := by
  unfold lowConfFallback; dsimp only; split_ifs <;> simp

theorem lowConfFallback_adj_sub (s : FuseState) :
    s.adjustments ⊆ (lowConfFallback s).adjustments := by
  unfold lowConfFallback; dsimp only; split_ifs <;> simp

theorem scenarioA_flags_sub (s : FuseState) : s.flags ⊆ (scenarioA s).flags := by
  unfold scenarioA; split_ifs <;> simp

theorem scenarioA_adj_sub (s : FuseState) : s.adjustments ⊆ (scenarioA s).adjustments := by
  unfold scenarioA; split_ifs <;> simp

theorem scenarioB_flags_sub (s : FuseState) : s.flags ⊆ (scenarioB s).flags := by
  unfold scenarioB; split_ifs <;> simp

theorem scenarioB_adj_sub (s : FuseState) : s.adjustments ⊆ (scenarioB s).adjustments := by
  unfold scenarioB; split_ifs <;> simp

theorem scenarioC_flags_sub (s : FuseState) : s.flags ⊆ (scenarioC s).flags := by
  unfold scenarioC; split_ifs <;> simp

theorem scenarioC_adj_sub (s : FuseState) : s.adjustments ⊆ (scenarioC s).adjustments := by
  unfold scenarioC; split_ifs <;> simp

theorem knnStep_flags_sub (cases : List SimilarCase) (s : FuseState) :
    s.flags ⊆ (knnStep cases s).flags := by
  unfold knnStep
  dsimp only
  split_ifs <;> try simp
  rcases argmaxBy (votesOf cases) with _ | top
  · simp
  · dsimp only; split_ifs <;> simp

theorem knnStep_adj_sub (cases : List SimilarCase) (s : FuseState) :
    s.adjustments ⊆ (knnStep cases s).adjustments := by
  unfold knnStep
  dsimp only
  split_ifs <;> try simp
  rcases argmaxBy (votesOf cases) with _ | top
  · simp
  · dsimp only; split_ifs <;> simp [List.subset_append_of_subset_left]

theorem applyCap_flags (s : FuseState) : (applyCap s).flags = s.flags := by
  unfold applyCap; split_ifs <;> rfl

theorem applyCap_adj (s : FuseState) : (applyCap s).adjustments = s.adjustments := by
  unfold applyCap; split_ifs <;> rfl

theorem applyCap_cap (s : FuseState) : (applyCap s).max_conf_cap = s.max_conf_cap := by
  unfold applyCap; split_ifs <;> rfl

/-- C4: for labelScores `{"Pneumonia": 0.9}`, features
`{"lung_area_ratio": 0.45, "asym_Lower_opacity": 0.05}` and no similar
cases, `fuse` returns diagnosis "Pneumonia" with confidence exactly
`0.9 * 0.8 = 0.72`, the adjustments contain the scenario-A downgrade
note, the flags contain the false-positive flag, and the anatomy gate
leaves the confidence cap at 1.0 (so the cap is not applied). -/
theorem fuse_pneumonia_symmetric_case :
    fuse [("Pneumonia", 9/10)]
        [(lungAreaRatioKey, 9/20), ("asym_Lower_opacity", 1/20)] [] =
      some { final_diagnosis := "Pneumonia"
             confidence_score := 18/25
             raw_dl_score := 9/10
             adjustments := [.downgradeSymmetric]
             flags := [.possibleFalsePositive]
             summary := .flaggedForReview } ∧
    (anatomyGate (initState ("Pneumonia", 9/10)
        [(lungAreaRatioKey, 9/20), ("asym_Lower_opacity", 1/20)])).max_conf_cap = 1 := by
  constructor
  · norm_num [fuse, mkResult, argmaxBy, initState, anatomyGate, lowConfFallback, scenarioA,
      scenarioB, scenarioC, knnStep, applyCap, generateSummary, asymScan,
      lookupD, lungAreaRatioKey, opacityCountKey]
  · norm_num [anatomyGate, initState, lookupD, lungAreaRatioKey, opacityCountKey, asymScan]

/-- C10: when `similarCases` is non-empty but the summed similarity
weight is 0, the whole vector-DB consensus step is skipped: no boost, no
0.9 penalty, no note and no flag are produced, and the
`consensus = topWeight / totalWeight` division (which sits inside the
`total_weight > 0` guard in the source) is never reached. -/
theorem knn_zero_total_weight_skips (cases : List SimilarCase) (s : FuseState)
    (hne : cases ≠ []) (hz : totalWeight cases = 0) : knnStep cases s = s := by
  unfold knnStep
  dsimp only
  rw [if_pos hne, hz]
  norm_num

theorem knn_zero_total_weight_skips_witness :
    knnStep [⟨"Pneumonia", 0⟩] (initState ("Pneumonia", 9/10) []) =
      initState ("Pneumonia", 9/10) [] :=
  knn_zero_total_weight_skips _ _ (by simp) (by norm_num [totalWeight])

/-- C7 counterexample: on the empty input (`None`), `preprocess` returns
`None`, not a zero buffer of the working resolution; the claim that the
failure yields a buffer of zeros is false. -/
theorem preprocess_none_returns_none :
    preprocess id id none = none ∧ preprocess id id none ≠ some (zeroImg 512 512) := by
  constructor
  · rfl
  · simp [preprocess]

/-- C7 amended: `preprocess` fails (returns the empty marker `None`)
exactly when its input is empty, and on every non-empty input it returns
the normalized resized buffer; the failure value is `None`, not a zero
buffer (the zero-buffer fallback belongs to `segment_lungs`). -/
theorem preprocess_fails_only_on_empty (resizeFn normalizeFn : Img → Img)
    (image : Option Img) :
    (preprocess resizeFn normalizeFn image = none ↔ image = none) ∧
    (∀ img, preprocess resizeFn normalizeFn (some img) =
      some (normalizeFn (resizeFn img))) := by
  constructor
  · cases image <;> simp [preprocess]
  · intro img; rfl

/-- C8: for non-negative zone means, the bilateral asymmetry feature
`|L - R| / (L + R + 1e-6)` is zero exactly when the two means are
equal. -/
theorem asym_opacity_zero_iff (lVal rVal : ℚ) (hl : 0 ≤ lVal) (hr : 0 ≤ rVal) :
    asymOpacity lVal rVal = 0 ↔ lVal = rVal := by
  have hd : 0 < lVal + rVal + 1/1000000 := by positivity
  rw [asymOpacity, div_eq_zero_iff]
  constructor
  · rintro (h0 | h0)
    · exact sub_eq_zero.mp (abs_eq_zero.mp h0)
    · exact absurd h0 (ne_of_gt hd)
  · intro hEq
    left
    rw [hEq, sub_self, abs_zero]

theorem asym_opacity_zero_iff_witness :
    ((0:ℚ) ≤ 2) ∧ (asymOpacity 2 2 = 0 ↔ (2:ℚ) = 2) :=
  ⟨by norm_num, asym_opacity_zero_iff 2 2 (by norm_num) (by norm_num)⟩

/-- C3 counterexample: with a successful decode, a first stage producing
the `lung_area_ratio` feature and a second stage raising, `extract`
returns the empty dict: the first stage's feature is lost, contradicting
the claim that other stages' features are still returned when one stage
fails. -/
theorem extract_stage_failure_aborts_all :
    extractFeatures true [Except.ok [(lungAreaRatioKey, 1/2)], Except.error ("stage raised"),
        Except.ok [], Except.ok [], Except.ok []] = [] ∧
      (lungAreaRatioKey, (1:ℚ)/2) ∉
        extractFeatures true [Except.ok [(lungAreaRatioKey, 1/2)], Except.error ("stage raised"),
          Except.ok [], Except.ok [], Except.ok []] := by
  refine ⟨rfl, fun h => ?_⟩
  rw [show extractFeatures true [Except.ok [(lungAreaRatioKey, 1/2)],
        Except.error ("stage raised"), Except.ok [], Except.ok [], Except.ok []] = []
      from rfl] at h
  exact List.not_mem_nil _ h

/-- A stage error anywhere in the stage list makes the sequential stage
execution fail as a whole. -/
theorem runStages_error_of_mem (stages : List (Except String (List (String × ℚ))))
    (e : String) (h : Except.error e ∈ stages) :
    ∃ e2, runStages stages = Except.error e2 := by
  induction stages with
  | nil => cases h
  | cons st rest ih =>
    cases st with
    | error e3 => exact ⟨e3, rfl⟩
    | ok f =>
      have hrest : Except.error e ∈ rest := by
        rcases List.mem_cons.mp h with h1 | h2
        · simp at h1
        · exact h2
      obtain ⟨e2, he⟩ := ih hrest
      refine ⟨e2, ?_⟩
      simp only [runStages, he]
      rfl

/-- C3 amended: the five feature stages are not isolated: the whole body
of `extract` sits inside a single `try`/`except`, so an exception in any
stage aborts the entire extraction and the call returns the empty
FeatureVector, discarding every other stage's features; a decode failure
also returns the empty FeatureVector. -/
theorem extract_aborts_on_stage_error (stages : List (Except String (List (String × ℚ))))
    (e : String) (h : Except.error e ∈ stages) :
    extractFeatures true stages = [] ∧ extractFeatures false stages = [] := by
  obtain ⟨e2, he⟩ := runStages_error_of_mem stages e h
  constructor
  · simp [extractFeatures, he]
  · rfl

theorem extract_aborts_on_stage_error_witness :
    extractFeatures true [Except.error ("texture stage raised")] = [] ∧
    extractFeatures false [Except.error ("texture stage raised")] = [] :=
  extract_aborts_on_stage_error [Except.error ("texture stage raised")]
    ("texture stage raised") (by simp)

/-- C6 counterexample: for a zone whose mask has zero on-pixels, the
returned metrics do not contain the `_norm_mean` key at all (the empty
branch of the zonal loop records `_mean`, `_std`, `_entropy` and
`_contrast` only), contradicting the claim that all four of `_mean`,
`_norm_mean`, `_std`, `_entropy` are present with value 0.0. -/
theorem zone_metrics_missing_norm_mean :
    (zonePixels img11 maskOff11).length = 0 ∧
    ("R_Upper_norm_mean" : String) ∉
      (zoneMetricsOne (fun _ => 0) (fun _ => 0) ("R_Upper")
        (zonePixels img11 maskOff11) 0).map Prod.fst := by
  constructor
  · rfl
  · decide

/-- C6 amended: a zone with zero on-pixels yields exactly the four keys
`_mean`, `_std`, `_entropy` and `_contrast`, each 0.0, and the
`_norm_mean` key is absent (it is only produced for non-empty zones). -/
theorem zone_metrics_empty_zone_keys (stdFn entFn : List ℕ → ℚ) (zName : String)
    {h w : ℕ} (img zmask : PixGrid h w) (gm : ℚ)
    (hz : (zonePixels img zmask).length = 0) :
    zoneMetricsOne stdFn entFn zName (zonePixels img zmask) gm =
      [(zName ++ "_mean", 0), (zName ++ "_std", 0),
       (zName ++ "_entropy", 0), (zName ++ "_contrast", 0)] ∧
    (zName ++ "_norm_mean") ∉
      (zoneMetricsOne stdFn entFn zName (zonePixels img zmask) gm).map Prod.fst := by
  have h1 : zoneMetricsOne stdFn entFn zName (zonePixels img zmask) gm =
      [(zName ++ "_mean", 0), (zName ++ "_std", 0),
       (zName ++ "_entropy", 0), (zName ++ "_contrast", 0)] := by
    unfold zoneMetricsOne
    rw [if_pos hz]
  refine ⟨h1, ?_⟩
  rw [h1]
  simp only [List.map_cons, List.map_nil, List.mem_cons, List.not_mem_nil, or_false]
  push_neg
  refine ⟨?_, ?_, ?_, ?_⟩ <;> exact append_tail_ne zName (by decide)

theorem zone_metrics_empty_zone_keys_witness :
    zoneMetricsOne (fun _ => 0) (fun _ => 0) ("L_Lower")
        (zonePixels img11 maskOff11) 0 =
      [(("L_Lower" : String) ++ "_mean", 0), (("L_Lower" : String) ++ "_std", 0),
       (("L_Lower" : String) ++ "_entropy", 0), (("L_Lower" : String) ++ "_contrast", 0)] ∧
    (("L_Lower" : String) ++ "_norm_mean") ∉
      (zoneMetricsOne (fun _ => 0) (fun _ => 0) ("L_Lower")
        (zonePixels img11 maskOff11) 0).map Prod.fst :=
  zone_metrics_empty_zone_keys (fun _ => 0) (fun _ => 0) ("L_Lower") img11 maskOff11 0 rfl

/-! ## C9 support: the fallback state is invisible to scenarios A, B, C -/

theorem lowConfFallback_asym (s : FuseState) :
    (lowConfFallback s).asymmetry_max = s.asymmetry_max := by
  unfold lowConfFallback; dsimp only; split_ifs <;> rfl

theorem lowConfFallback_normal_asym (s : FuseState) (h : s.dl_score < 1/10)
    (hlbl : (lowConfFallback s).dl_top_label = "Normal") :
    (lowConfFallback s).asymmetry_max ≤ 2/25 := by
  rw [lowConfFallback_asym]
  unfold lowConfFallback at hlbl
  dsimp only at hlbl
  rw [if_pos h] at hlbl
  split_ifs at hlbl with h1 h2
  · simp at hlbl
  · simp at hlbl
  · push_neg at h2
    exact h2.1

theorem scenarios_inert_of_low_dl (s : FuseState) (h : s.dl_score < 1/10) :
    scenarioC (scenarioB (scenarioA (lowConfFallback s))) = lowConfFallback s := by
  have hA : scenarioA (lowConfFallback s) = lowConfFallback s := by
    unfold scenarioA
    rw [if_neg]
    rintro ⟨-, h2, -⟩
    rw [lowConfFallback_dl_score] at h2
    linarith
  have hB : scenarioB (lowConfFallback s) = lowConfFallback s := by
    unfold scenarioB
    rw [if_neg]
    rintro ⟨hlbl, hasym⟩
    have := lowConfFallback_normal_asym s h hlbl
    linarith
  have hC : scenarioC (lowConfFallback s) = lowConfFallback s := by
    unfold scenarioC
    rw [if_neg]
    rintro ⟨-, h2, -⟩
    rw [lowConfFallback_dl_score] at h2
    linarith
  rw [hA, hB, hC]

/-- C9: when the low-confidence fallback fires (top classifier score
below 0.10), scenarios A, B and C leave the pipeline state untouched
(A and C test the unchanged `dl_score > 0.6`, and the fallback assigns
"Normal" only under `asymMax ≤ 0.08 < 0.25`), so a fallback-produced
score is changed afterwards only by the similarity-consensus step and
the final cap. -/
theorem fallback_immune_to_scenarios (preds feats : List (String × ℚ))
    (cases : List SimilarCase) (top : String × ℚ)
    (htop : argmaxBy preds = some top) (hdl : top.2 < 1/10) :
    scenarioC (scenarioB (scenarioA
        (lowConfFallback (anatomyGate (initState top feats))))) =
      lowConfFallback (anatomyGate (initState top feats)) ∧
    fuse preds feats cases =
      some (mkResult top.2 (applyCap (knnStep cases
        (lowConfFallback (anatomyGate (initState top feats)))))) := by
  have hscore : (anatomyGate (initState top feats)).dl_score < 1/10 := by
    rw [anatomyGate_dl_score]
    exact hdl
  have hmain := scenarios_inert_of_low_dl _ hscore
  refine ⟨hmain, ?_⟩
  simp only [fuse, htop]
  rw [hmain]

theorem fallback_immune_to_scenarios_witness :
    scenarioC (scenarioB (scenarioA
        (lowConfFallback (anatomyGate (initState ("Normal", 1/20) []))))) =
      lowConfFallback (anatomyGate (initState ("Normal", 1/20) [])) ∧
    fuse [("Normal", 1/20)] [] [] =
      some (mkResult (1/20) (applyCap (knnStep []
        (lowConfFallback (anatomyGate (initState ("Normal", 1/20) [])))))) :=
  fallback_immune_to_scenarios [("Normal", 1/20)] [] [] ("Normal", 1/20) rfl (by norm_num)

/-- C5: whenever the lung area ratio is at least 0.01 but outside
[0.10, 0.75], and the top classifier score is at most 0.9, the anatomy
gate sets the cap to 0.65, appends both the "Anatomy Unclear" flag and
the cap adjustment note, and the returned confidence is at most 0.65. -/
theorem anatomy_cap_065 (preds feats : List (String × ℚ)) (cases : List SimilarCase)
    (top : String × ℚ) (htop : argmaxBy preds = some top) (hdl : top.2 ≤ 9/10)
    (hlr1 : ¬ lookupD feats lungAreaRatioKey 0 < 1/100)
    (hlr2 : lookupD feats lungAreaRatioKey 0 < 1/10 ∨ lookupD feats lungAreaRatioKey 0 > 3/4) :
    ∃ r, fuse preds feats cases = some r ∧
      FuseFlag.anatomyUnclear ∈ r.flags ∧
      FuseAdjustment.cappedAnatomyRisk ∈ r.adjustments ∧
      r.confidence_score ≤ 13/20 := by
  have hgate : anatomyGate (initState top feats) =
      { initState top feats with
        max_conf_cap := 13/20,
        flags := (initState top feats).flags ++ [.anatomyUnclear],
        adjustments := (initState top feats).adjustments ++ [.cappedAnatomyRisk] } := by
    have h1 : ¬ (initState top feats).lung_ratio < 1/100 := hlr1
    have h2 : (initState top feats).lung_ratio < 1/10 ∨ (initState top feats).lung_ratio > 3/4 := hlr2
    have h3 : ¬ (initState top feats).dl_score > 9/10 := not_lt.mpr hdl
    unfold anatomyGate
    rw [if_neg h1, if_pos h2, if_neg h3]
  refine ⟨mkResult top.2 (applyCap (knnStep cases (scenarioC (scenarioB (scenarioA
    (lowConfFallback (anatomyGate (initState top feats)))))))), ?_, ?_, ?_, ?_⟩
  · simp only [fuse, htop]
  · have hmem : FuseFlag.anatomyUnclear ∈ (anatomyGate (initState top feats)).flags := by
      rw [hgate]
      simp
    show FuseFlag.anatomyUnclear ∈ (applyCap _).flags
    rw [applyCap_flags]
    exact knnStep_flags_sub _ _ (scenarioC_flags_sub _ (scenarioB_flags_sub _
      (scenarioA_flags_sub _ (lowConfFallback_flags_sub _ hmem))))
  · have hmem : FuseAdjustment.cappedAnatomyRisk ∈ (anatomyGate (initState top feats)).adjustments := by
      rw [hgate]
      simp
    show FuseAdjustment.cappedAnatomyRisk ∈ (applyCap _).adjustments
    rw [applyCap_adj]
    exact knnStep_adj_sub _ _ (scenarioC_adj_sub _ (scenarioB_adj_sub _
      (scenarioA_adj_sub _ (lowConfFallback_adj_sub _ hmem))))
  · have hcap : (knnStep cases (scenarioC (scenarioB (scenarioA
        (lowConfFallback (anatomyGate (initState top feats))))))).max_conf_cap = 13/20 := by
      rw [knnStep_cap, scenarioC_cap, scenarioB_cap, scenarioA_cap, lowConfFallback_cap, hgate]
    calc (mkResult top.2 (applyCap (knnStep cases (scenarioC (scenarioB (scenarioA
          (lowConfFallback (anatomyGate (initState top feats))))))))).confidence_score
        = (applyCap (knnStep cases (scenarioC (scenarioB (scenarioA
            (lowConfFallback (anatomyGate (initState top feats)))))))).final_score := rfl
      _ ≤ (knnStep cases (scenarioC (scenarioB (scenarioA
            (lowConfFallback (anatomyGate (initState top feats))))))).max_conf_cap := applyCap_le _
      _ ≤ 13/20 := by rw [hcap]

theorem anatomy_cap_065_witness :
    ∃ r, fuse [("Pneumonia", 9/10)] [(lungAreaRatioKey, 1/20)] [] = some r ∧
      FuseFlag.anatomyUnclear ∈ r.flags ∧
      FuseAdjustment.cappedAnatomyRisk ∈ r.adjustments ∧
      r.confidence_score ≤ 13/20 :=
  anatomy_cap_065 _ _ _ ("Pneumonia", 9/10) rfl (by norm_num)
    (by norm_num [lookupD]) (Or.inl (by norm_num [lookupD]))

/-! ## C1 support: the confidence score stays in the unit interval -/

theorem asymScan_go_nonneg (l : List (String × ℚ)) :
    ∀ acc : ℚ × String, 0 ≤ acc.1 →
      0 ≤ (l.foldl
        (fun acc kv =>
          if strHasSub kv.1 asymTok ∧ strHasSub kv.1 opacityTok ∧ kv.2 > acc.1
          then (kv.2, kv.1) else acc) acc).1 := by
  induction l with
  | nil => intro acc h; exact h
  | cons kv rest ih =>
    intro acc h
    simp only [List.foldl_cons]
    apply ih
    split_ifs with hc
    · exact le_of_lt (lt_of_le_of_lt h hc.2.2)
    · exact h

theorem asymScan_nonneg (feats : List (String × ℚ)) : 0 ≤ (asymScan feats).1 := by
  unfold asymScan
  exact asymScan_go_nonneg feats (0, "") le_rfl

theorem lowConfFallback_final_nonneg (s : FuseState) (hfs : s.final_score = s.dl_score)
    (ha : 0 ≤ s.asymmetry_max) : 0 ≤ (lowConfFallback s).final_score := by
  unfold lowConfFallback
  dsimp only
  split_ifs with h0 h1 h2
  · have hmin : 0 ≤ min (s.asymmetry_max * 1) ((3:ℚ)/10) := le_min (by linarith) (by norm_num)
    show (0:ℚ) ≤ 3/5 + min (s.asymmetry_max * 1) (3/10)
    linarith
  · have hmin : 0 ≤ min (s.asymmetry_max * (4/5)) ((1:ℚ)/4) := le_min (by linarith) (by norm_num)
    show (0:ℚ) ≤ 1/2 + min (s.asymmetry_max * (4/5)) (1/4)
    linarith
  · push_neg at h2
    have hmin : 0 ≤ min ((3/20 - s.asymmetry_max) * (1/2)) ((1:ℚ)/5) := by
      refine le_min ?_ (by norm_num)
      have : s.asymmetry_max ≤ 2/25 := h2.1
      nlinarith
    show (0:ℚ) ≤ 3/4 + min ((3/20 - s.asymmetry_max) * (1/2)) (1/5)
    linarith
  · rw [hfs] at *
    show 0 ≤ s.dl_score
    push_neg at h0
    linarith

theorem scenarioA_final_nonneg (s : FuseState) (h : 0 ≤ s.final_score) :
    0 ≤ (scenarioA s).final_score := by
  unfold scenarioA
  split_ifs
  · exact mul_nonneg h (by norm_num)
  · exact h

theorem scenarioB_final_nonneg (s : FuseState) (h : 0 ≤ s.final_score) :
    0 ≤ (scenarioB s).final_score := by
  unfold scenarioB
  split_ifs
  · exact mul_nonneg h (by norm_num)
  · exact h

theorem scenarioC_final_nonneg (s : FuseState) (h : 0 ≤ s.final_score) :
    0 ≤ (scenarioC s).final_score := by
  unfold scenarioC
  split_ifs
  · exact le_min (by norm_num) (by linarith)
  · exact h

theorem addVote_nonneg (lbl : String) (sim : ℚ) (hs : 0 ≤ sim) :
    ∀ votes : List (String × ℚ), (∀ p ∈ votes, 0 ≤ p.2) →
      ∀ p ∈ addVote votes lbl sim, 0 ≤ p.2 := by
  intro votes
  induction votes with
  | nil =>
    intro _ p hp
    simp only [addVote, List.mem_singleton] at hp
    rw [hp]
    exact hs
  | cons kv rest ih =>
    intro hv p hp
    unfold addVote at hp
    rcases kv with ⟨k, v⟩
    split_ifs at hp with hk
    · rcases List.mem_cons.mp hp with h1 | h2
      · rw [h1]
        exact add_nonneg (hv (k, v) (List.mem_cons_self _ _)) hs
      · exact hv p (List.mem_cons_of_mem _ h2)
    · rcases List.mem_cons.mp hp with h1 | h2
      · rw [h1]
        exact hv (k, v) (List.mem_cons_self _ _)
      · exact ih (fun q hq => hv q (List.mem_cons_of_mem _ hq)) p h2

theorem votesOf_go_nonneg (cases : List SimilarCase) :
    ∀ acc : List (String × ℚ), (∀ c ∈ cases, 0 ≤ c.similarity) →
      (∀ p ∈ acc, 0 ≤ p.2) →
      ∀ p ∈ cases.foldl (fun vs c => addVote vs c.label c.similarity) acc, 0 ≤ p.2 := by
  induction cases with
  | nil => intro acc _ hacc p hp; exact hacc p hp
  | cons c rest ih =>
    intro acc hsim hacc
    simp only [List.foldl_cons]
    exact ih _ (fun d hd => hsim d (List.mem_cons_of_mem _ hd))
      (addVote_nonneg _ _ (hsim c (List.mem_cons_self _ _)) acc hacc)

theorem votesOf_nonneg (cases : List SimilarCase)
    (hsim : ∀ c ∈ cases, 0 ≤ c.similarity) : ∀ p ∈ votesOf cases, 0 ≤ p.2 :=
  votesOf_go_nonneg cases [] hsim (by simp)

theorem argmax_go_mem (rest : List (String × ℚ)) :
    ∀ x : String × ℚ,
      rest.foldl (fun best p => if p.2 > best.2 then p else best) x ∈ x :: rest := by
  induction rest with
  | nil => intro x; simp
  | cons y ys ih =>
    intro x
    simp only [List.foldl_cons]
    have h2 := ih (if y.2 > x.2 then y else x)
    rcases List.mem_cons.mp h2 with h3 | h3
    · rw [h3]
      split_ifs
      · exact List.mem_cons_of_mem _ (List.mem_cons_self _ _)
      · exact List.mem_cons_self _ _
    · exact List.mem_cons_of_mem _ (List.mem_cons_of_mem _ h3)

theorem argmaxBy_mem (l : List (String × ℚ)) (top : String × ℚ)
    (h : argmaxBy l = some top) : top ∈ l := by
  cases l with
  | nil => cases h
  | cons x rest =>
    simp only [argmaxBy, Option.some.injEq] at h
    rw [← h]
    exact argmax_go_mem rest x

theorem knnStep_final_nonneg (cases : List SimilarCase) (s : FuseState)
    (hsim : ∀ c ∈ cases, 0 ≤ c.similarity) (h : 0 ≤ s.final_score) :
    0 ≤ (knnStep cases s).final_score := by
  unfold knnStep
  dsimp only
  split_ifs with h1 h2
  · rcases hm : argmaxBy (votesOf cases) with _ | top
    · exact h
    · dsimp only
      split_ifs with h3 h4
      · have htopnn : 0 ≤ top.2 := votesOf_nonneg cases hsim top (argmaxBy_mem _ _ hm)
        have hcons : 0 ≤ top.2 / totalWeight cases := div_nonneg htopnn (le_of_lt h2)
        refine le_min (by norm_num) ?_
        have hb : 0 ≤ 1/20 * (top.2 / totalWeight cases) := by positivity
        linarith
      · exact mul_nonneg h (by norm_num)
      · exact h
  · exact h
  · exact h

/-- C1: for every non-empty prediction map, every feature map and every
list of similar cases (whose similarities are non-negative, per the
SimilarCase data-model invariant), the confidence score returned by
`fuse` lies in [0, 1]: the final cap is one of 1, 0.85, 0.65 and every
arithmetic step preserves non-negativity. -/
theorem fuse_confidence_unit_interval (preds feats : List (String × ℚ))
    (cases : List SimilarCase) (hpreds : preds ≠ [])
    (hsim : ∀ c ∈ cases, 0 ≤ c.similarity) :
    ∃ r, fuse preds feats cases = some r ∧
      0 ≤ r.confidence_score ∧ r.confidence_score ≤ 1 := by
  obtain ⟨top, htop⟩ : ∃ top, argmaxBy preds = some top := by
    cases preds with
    | nil => exact absurd rfl hpreds
    | cons x rest => exact ⟨_, rfl⟩
  have hcapchain : (knnStep cases (scenarioC (scenarioB (scenarioA
      (lowConfFallback (anatomyGate (initState top feats))))))).max_conf_cap =
      (anatomyGate (initState top feats)).max_conf_cap := by
    rw [knnStep_cap, scenarioC_cap, scenarioB_cap, scenarioA_cap, lowConfFallback_cap]
  have hcap01 : 0 ≤ (anatomyGate (initState top feats)).max_conf_cap ∧
      (anatomyGate (initState top feats)).max_conf_cap ≤ 1 := by
    rcases anatomyGate_cap_cases (initState top feats) with h | h | h <;> rw [h] <;>
      norm_num [initState]
  refine ⟨mkResult top.2 (applyCap (knnStep cases (scenarioC (scenarioB (scenarioA
    (lowConfFallback (anatomyGate (initState top feats)))))))), ?_, ?_, ?_⟩
  · simp only [fuse, htop]
  · show 0 ≤ (applyCap _).final_score
    apply applyCap_nonneg
    · apply knnStep_final_nonneg _ _ hsim
      apply scenarioC_final_nonneg
      apply scenarioB_final_nonneg
      apply scenarioA_final_nonneg
      apply lowConfFallback_final_nonneg
      · rw [anatomyGate_final_score, anatomyGate_dl_score]
        rfl
      · rw [anatomyGate_asym]
        exact asymScan_nonneg feats
    · rw [hcapchain]
      exact hcap01.1
  · show (applyCap _).final_score ≤ 1
    calc (applyCap (knnStep cases (scenarioC (scenarioB (scenarioA
          (lowConfFallback (anatomyGate (initState top feats)))))))).final_score
        ≤ (knnStep cases (scenarioC (scenarioB (scenarioA
            (lowConfFallback (anatomyGate (initState top feats))))))).max_conf_cap :=
          applyCap_le _
      _ ≤ 1 := by rw [hcapchain]; exact hcap01.2

theorem fuse_confidence_unit_interval_witness :
    ∃ r, fuse [("Pneumonia", 9/10)] [] [] = some r ∧
      0 ≤ r.confidence_score ∧ r.confidence_score ≤ 1 :=
  fuse_confidence_unit_interval [("Pneumonia", 9/10)] [] [] (by simp) (by simp)

/-! ## C2 support: the six zones partition the lung mask -/

theorem rowOn_bounds {h w : ℕ} (m : PixGrid h w) (y : Fin h) (x : Fin w)
    (hx : m y x ≠ 0) : topY m ≤ (y : ℕ) ∧ (y : ℕ) < bottomY m := by
  have hy : y ∈ onRows m := by
    simp only [onRows, Finset.mem_filter, Finset.mem_univ, true_and]
    exact ⟨x, hx⟩
  have hne : (onRows m).Nonempty := ⟨y, hy⟩
  constructor
  · rw [topY, dif_pos hne]
    exact Fin.le_def.mp ((onRows m).min'_le y hy)
  · rw [bottomY, dif_pos hne]
    have hle := Fin.le_def.mp ((onRows m).le_max' y hy)
    omega

theorem split_bounds {h w : ℕ} (m : PixGrid h w) :
    topY m ≤ splitY1 m ∧ splitY1 m ≤ splitY2 m ∧ splitY2 m ≤ bottomY m := by
  have h1 : topY m ≤ bottomY m := by
    unfold topY bottomY
    split_ifs with hne
    · have hmm := Fin.le_def.mp ((onRows m).min'_le _ ((onRows m).max'_mem hne))
      omega
    · exact Nat.zero_le h
  unfold splitY1 splitY2 lungThird
  omega

theorem createZone_sideRight_on {h w : ℕ} (m : PixGrid h w) (a b : ℕ)
    (y : Fin h) (x : Fin w) :
    createZone (sideRight m) a b y x = 255 ↔
      ((a ≤ (y : ℕ) ∧ (y : ℕ) < b) ∧ (x : ℕ) < centroidX m ∧ m y x = 255) := by
  unfold createZone sideRight
  split_ifs with h1 h2
  · simp [h1, h2]
  · simp [h1, h2]
  · simp [h1]

theorem createZone_sideLeft_on {h w : ℕ} (m : PixGrid h w) (a b : ℕ)
    (y : Fin h) (x : Fin w) :
    createZone (sideLeft m) a b y x = 255 ↔
      ((a ≤ (y : ℕ) ∧ (y : ℕ) < b) ∧ ¬ (x : ℕ) < centroidX m ∧ m y x = 255) := by
  unfold createZone sideLeft
  split_ifs with h1 h2
  · simp [h1, h2]
  · simp [h1, h2]
  · simp [h1]

/-- C2: for a binary lung mask, every pixel that is 255 in the mask is
255 in exactly one of the six zone masks produced by `get_zonal_masks`,
and no zone mask is 255 at a pixel where the mask is not 255: the six
zones partition the mask's on-pixels. -/
theorem zonal_masks_partition {h w : ℕ} (m : PixGrid h w)
    (hbin : ∀ y x, m y x = 0 ∨ m y x = 255) (y : Fin h) (x : Fin w) :
    ((zonalMasks m).map Prod.snd).countP (fun z => z y x == 255) =
      if m y x = 255 then 1 else 0 := by
  rcases hbin y x with h0 | h255
  · rw [if_neg (by rw [h0]; norm_num)]
    simp [zonalMasks, List.countP_cons, beq_iff_eq,
      createZone_sideRight_on, createZone_sideLeft_on, h0]
  · rw [if_pos h255]
    obtain ⟨hty, hby⟩ := rowOn_bounds m y x (by rw [h255]; norm_num)
    obtain ⟨hs1, hs2, hs3⟩ := split_bounds m
    simp only [zonalMasks, List.map_cons, List.map_nil, List.countP_cons,
      List.countP_nil, beq_iff_eq, createZone_sideRight_on, createZone_sideLeft_on,
      h255, and_true]
    split_ifs <;> omega

theorem zonal_masks_partition_witness :
    ((zonalMasks maskOn11).map Prod.snd).countP (fun z => z 0 0 == 255) = 1 := by
  have hb : ∀ y x, maskOn11 y x = 0 ∨ maskOn11 y x = 255 := by
    intro y x
    right
    rfl
  have hmain := zonal_masks_partition maskOn11 hb 0 0
  simpa [maskOn11] using hmain
